import Mathlib

/-!
Shallow embedding of the drift measurement core of the polly repository
(src/driftmeasurement.py): the PeakDrift tracking, persistence and fitting
logic and the GroupDrift aggregation logic, together with theorems settling
the specification claims about them.

Modelling conventions:
* Python floats appearing as data are modelled by PF, a rational number
  extended with a NaN element.  Floating point rounding is irrelevant to
  every claim considered here, while NaN propagation is not, so PF keeps
  exact rational values and an explicit NaN.
* Python None entries of the per-index series are modelled by Option PF:
  none is None, some PF.nan is a NaN float, some (PF.v q) is the float q.
* datetime values are modelled by natural numbers counting days from a
  fixed epoch, so that subtraction of dates in days and comparison of
  dates coincide with the Python semantics.  The yyyymmdd serialisation
  and parse_yyyymmdd form a bijection between dates and their stored
  form and are modelled as the identity on the day number.
* A detection snapshot file m is modelled by the list of its data rows.
  np.loadtxt squeezes its result (default ndmin=0), so the expression
  np.transpose(np.loadtxt(m)) at line 217 yields the parallel position
  and uncertainty columns only for files of at least two rows: a file
  with no rows makes the line-217 unpack raise ValueError, and a file
  with one row unpacks into two numpy scalars, so that
  peaks[closest_index] at line 230 raises IndexError; neither error is
  caught (the try at line 223 wraps only the nanargmin call and catches
  only ValueError).  The cache loader at lines 99-101 fails the same
  way: an empty cache raises ValueError at the three-way unpack and a
  one-row cache raises TypeError when line 101 iterates a numpy scalar.
  snapStepE and load_from_fileE model these decode outcomes; trackStep
  and load_from_file are the decoded-columns logic they invoke on two
  or more rows.
* Scalars entering numpy arithmetic (the reference wavelength against
  the wavelength series) are numpy scalars in the de-facto data flow, so
  a plain list combines with them by broadcasting; the embedding adopts
  this numpy-scalar typing throughout.
-/

namespace Polly

/-- A Python float datum: either NaN or an exact rational value. -/
inductive PF where
  | nan : PF
  | v : ℚ → PF
deriving DecidableEq

/-- Test for NaN, as np.isnan. -/
def PF.isnan : PF → Bool
  | PF.nan => true
  | PF.v _ => false

/-- Subtraction of a scalar from a float, with NaN propagation, as numpy
elementwise subtraction. -/
def PF.subQ : PF → ℚ → PF
  | PF.nan, _ => PF.nan
  | PF.v a, r => PF.v (a - r)

/-- Division of a float by a scalar, with NaN propagation, as numpy
elementwise division.  Every divisor in the modelled source is a
reference wavelength, which is a positive quantity. -/
def PF.divQ : PF → ℚ → PF
  | PF.nan, _ => PF.nan
  | PF.v a, r => PF.v (a / r)

/-- Python truthiness of an entry of the wavelengths list, as evaluated
by np.where(self.wavelengths, True, False) at line 245 of
driftmeasurement.py: None is falsy, the float 0.0 is falsy, NaN and
every nonzero float are truthy. -/
def truthy : Option PF → Bool
  | none => false
  | some PF.nan => true
  | some (PF.v q) => decide (q ≠ 0)

/-- One data row of a detection snapshot file: a detected peak position
and its uncertainty.  Rows carry genuine (non-NaN) numbers; a snapshot
whose decoded columns hold two or more rows that are all NaN (the one
case in which the caught nanargmin ValueError of lines 223-228 fires)
is not modelled. -/
structure Row where
  pos : ℚ
  sig : ℚ
deriving DecidableEq

/-- A detection snapshot: the date parsed from the mask filename by
parse_filename, and the candidate rows of the file. -/
structure Snap where
  date : ℕ
  rows : List Row
deriving DecidableEq

/-- Construction inputs of a PeakDrift: the date of the reference mask
(parse_filename(reference_mask).date), the reference wavelength and the
local spacing. -/
structure DriftConfig where
  referenceMaskDate : ℕ
  reference_wavelength : ℚ
  local_spacing : ℚ
deriving DecidableEq

/-- The per-index state of a PeakDrift after construction: the four
parallel series together with the scalar configuration. -/
structure TrackerState where
  referenceMaskDate : ℕ
  reference_wavelength : ℚ
  local_spacing : ℚ
  dates : List ℕ
  wavelengths : List (Option PF)
  sigmas : List (Option PF)
  valid : List Bool
deriving DecidableEq

/-- Absolute value of a rational, as np.abs and the Python builtin abs
applied to a float value. -/
def qabs (q : ℚ) : ℚ := if q < 0 then -q else q

/-- The candidate closest to the cursor:
np.nanargmin(np.abs(peaks - last_wavelength)) at line 224, keeping the
first row on ties as nanargmin does, and none for an empty candidate set
(the caught ValueError). -/
def closestRow (cursor : ℚ) : List Row → Option Row
  | [] => none
  | r :: rest =>
    match closestRow cursor rest with
    | none => some r
    | some b => if qabs (r.pos - cursor) ≤ qabs (b.pos - cursor) then some r else some b

/-- The matching logic of the loop body (lines 223-242) on successfully
decoded candidate columns, as invoked by snapStepE on snapshots of at
least two rows: it returns the wavelength entry and sigma entry appended
for this snapshot, and the cursor used for the next snapshot.  A
candidate farther than local_spacing / 50 from the cursor yields null
entries and an unchanged cursor; otherwise the accepted position and
uncertainty are recorded and the cursor moves to the accepted position.
(The none branch of the match mirrors the caught nanargmin ValueError of
lines 225-228 and is unreachable for the non-empty row lists snapStepE
passes in.) -/
def trackStep (local_spacing cursor : ℚ) (rows : List Row) :
    Option PF × Option PF × ℚ :=
  match closestRow cursor rows with
  | none => (none, none, cursor)
  | some r =>
    if qabs (cursor - r.pos) ≤ local_spacing / 50 then
      (some (PF.v r.pos), some (PF.v r.sig), r.pos)
    else
      (none, none, cursor)

/-- One iteration of the tracking loop (lines 215-242) on the rows of
one snapshot file, decode outcomes included.  A file with no rows makes
the unpack of the squeezed loadtxt result at line 217 raise an uncaught
ValueError; a file with exactly one row unpacks into two numpy scalars,
nanargmin still returns 0, and peaks[closest_index] at line 230 raises
an uncaught IndexError; from two rows on, the decoded parallel columns
reach the matching logic trackStep. -/
def snapStepE (local_spacing cursor : ℚ) (rows : List Row) :
    Except String (Option PF × Option PF × ℚ) :=
  match rows with
  | [] => Except.error "ValueError: not enough values to unpack (expected 2, got 0)"
  | [_] => Except.error "IndexError: invalid index to scalar variable"
  | _ => Except.ok (trackStep local_spacing cursor rows)

/-- The tracking loop of PeakDrift.track_drift (lines 211-242), started
from a given cursor: it returns the dates, wavelengths and sigmas
series, or propagates the first uncaught decode error.  The source
initialises last_wavelength to None and replaces it by the reference
wavelength on the first iteration, which is equivalent to starting the
fold from the reference wavelength. -/
def trackAuxE (local_spacing cursor : ℚ) :
    List Snap → Except String (List ℕ × List (Option PF) × List (Option PF))
  | [] => Except.ok ([], [], [])
  | s :: rest =>
    match snapStepE local_spacing cursor s.rows with
    | Except.error e => Except.error e
    | Except.ok step =>
      match trackAuxE local_spacing step.2.2 rest with
      | Except.error e => Except.error e
      | Except.ok tail =>
        Except.ok (s.date :: tail.1, step.1 :: tail.2.1, step.2.1 :: tail.2.2)

/-- PeakDrift.track_drift (lines 201-248): track the peak through the
snapshots and derive the validity mask from the truthiness of the
wavelength entries (line 245), or propagate an uncaught decode error. -/
def track_driftE (cfg : DriftConfig) (snaps : List Snap) :
    Except String TrackerState :=
  match trackAuxE cfg.local_spacing cfg.reference_wavelength snaps with
  | Except.error e => Except.error e
  | Except.ok t =>
    Except.ok
      { referenceMaskDate := cfg.referenceMaskDate
        reference_wavelength := cfg.reference_wavelength
        local_spacing := cfg.local_spacing
        dates := t.1
        wavelengths := t.2.1
        sigmas := t.2.2
        valid := (t.2.1).map truthy }

/-- One stored row of the three-column drift cache file: date,
wavelength, uncertainty. -/
structure CacheRow where
  date : ℕ
  wl : PF
  sig : PF
deriving DecidableEq

/-- The reinterpretation self.sigmas[self.sigmas == 0] = np.nan at line
106: a stored uncertainty of exactly 0 becomes NaN. -/
def zeroToNan (p : PF) : PF :=
  if p = PF.v 0 then PF.nan else p

/-- The cache interpretation of PeakDrift.load_from_file (lines 96-116)
on a successfully decoded cache of at least two rows, as invoked by
load_from_fileE: read the three columns, map zero uncertainties to NaN,
and mark valid exactly the indices whose wavelength and (reinterpreted)
uncertainty are both non-NaN. -/
def load_from_file (cfg : DriftConfig) (rows : List CacheRow) : TrackerState :=
  { referenceMaskDate := cfg.referenceMaskDate
    reference_wavelength := cfg.reference_wavelength
    local_spacing := cfg.local_spacing
    dates := rows.map (fun r => r.date)
    wavelengths := rows.map (fun r => some r.wl)
    sigmas := rows.map (fun r => some (zeroToNan r.sig))
    valid := rows.map (fun r => !(r.wl.isnan) && !((zeroToNan r.sig).isnan)) }

/-- PeakDrift.load_from_file (lines 96-116) decode outcomes included: an
empty cache file makes the three-way unpack of the squeezed loadtxt
result at line 99 raise an uncaught ValueError, a one-row cache unpacks
into three numpy scalars and line 101 raises an uncaught TypeError when
it iterates the scalar date column, and from two rows on the columns
decode and the cache is interpreted by load_from_file. -/
def load_from_fileE (cfg : DriftConfig) (rows : List CacheRow) :
    Except String TrackerState :=
  match rows with
  | [] => Except.error "ValueError: not enough values to unpack (expected 3, got 0)"
  | [_] => Except.error "TypeError: numpy.float64 object is not iterable"
  | _ => Except.ok (load_from_file cfg rows)

/-- Boolean mask selection over a list of matching length, as numpy
boolean-array indexing where the mask fits; npMaskSel adds the numpy
length guard. -/
def maskFilter {α : Type} : List α → List Bool → List α
  | x :: xs, b :: bs => if b then x :: maskFilter xs bs else maskFilter xs bs
  | _, _ => []

/-- Numpy boolean-array indexing with its length guard: selecting with a
boolean mask whose length differs from the array raises IndexError. -/
def npMaskSel {α : Type} (xs : List α) (mask : List Bool) :
    Except String (List α) :=
  if xs.length = mask.length then Except.ok (maskFilter xs mask)
  else Except.error "IndexError: boolean index did not match indexed array"

/-- PeakDrift.valid_wavelengths (lines 118-123) for a constructed
tracker, whose valid mask is always set. -/
def valid_wavelengths (st : TrackerState) : List (Option PF) :=
  maskFilter st.wavelengths st.valid

/-- PeakDrift.valid_sigmas (lines 125-130). -/
def valid_sigmas (st : TrackerState) : List (Option PF) :=
  maskFilter st.sigmas st.valid

/-- PeakDrift.valid_dates (lines 132-137). -/
def valid_dates (st : TrackerState) : List ℕ :=
  maskFilter st.dates st.valid

/-- The float value of a series entry, for entries consumed by numpy
arithmetic.  Valid entries are never None on either construction path,
so the None case is unreachable there and is mapped to NaN. -/
def entryPF : Option PF → PF
  | none => PF.nan
  | some p => p

/-- PeakDrift.deltas (lines 161-163): valid wavelengths minus the
reference wavelength, elementwise. -/
def deltas (st : TrackerState) : List PF :=
  (valid_wavelengths st).map (fun w => (entryPF w).subQ st.reference_wavelength)

/-- PeakDrift.fractional_deltas (lines 187-189): deltas divided by the
reference wavelength, elementwise. -/
def fractional_deltas (st : TrackerState) : List PF :=
  (deltas st).map (fun d => d.divQ st.reference_wavelength)

/-- The search loop of PeakDrift.get_delta_at_date (lines 182-185):
walk valid_dates and deltas in parallel and return the delta entry of
the first index whose date matches; np.nan when no date matches. -/
def lookupDelta : List ℕ → List PF → ℕ → PF
  | dd :: ds, x :: xs, q => if dd = q then x else lookupDelta ds xs q
  | _, _, _ => PF.nan

/-- PeakDrift.get_delta_at_date (lines 165-185) on a single date. -/
def get_delta_at_date (st : TrackerState) (date : ℕ) : PF :=
  lookupDelta (valid_dates st) (deltas st) date

/-- PeakDrift.get_delta_at_date on a list argument (lines 177-178): the
elementwise list of single-date results. -/
def get_delta_at_date_list (st : TrackerState) (dates : List ℕ) : List PF :=
  dates.map (get_delta_at_date st)

/-- Transposition of the three column string lists written by
PeakDrift.save_to_file (lines 328-337) into the stored rows.  The f
string serialisations of dates and of float values round-trip exactly
and are modelled as the identity on the values. -/
def rows3 : List ℕ → List (Option PF) → List (Option PF) → List CacheRow
  | d :: ds, w :: ws, s :: ss => ⟨d, entryPF w, entryPF s⟩ :: rows3 ds ws ss
  | _, _, _ => []

/-- PeakDrift.save_to_file (lines 307-342) on a freshly recomputed
tracker (self.recalculated is True, so the early no-op return at line
324 is not taken): the rows written to the cache file are the valid
dates, wavelengths and uncertainties, in order; invalid indices are
dropped, not placeholder-written. -/
def save_to_file (st : TrackerState) : List CacheRow :=
  rows3 (valid_dates st) (valid_wavelengths st) (valid_sigmas st)

/-- PeakDrift.days_since_reference_date (lines 143-145): day offsets of
the valid dates from the reference mask date. -/
def days_since_reference_date (st : TrackerState) : List ℤ :=
  (valid_dates st).map (fun d => (d : ℤ) - (st.referenceMaskDate : ℤ))

/-- PeakDrift.__post_init__ (lines 71-94), without the trailing auto fit
call.  The drift_file argument is none when no cache path was supplied
(the declared default None), some none when a path was supplied but no
file exists, and some (some rows) when the cache file exists with the
given rows.  With no path supplied, the source evaluates
self.drift_file.exists() on None at line 75, which raises
AttributeError; with an existing file the cache is loaded unless
force_recalculate is set, and otherwise the drift is tracked from the
snapshots. -/
def post_init (cfg : DriftConfig) (snaps : List Snap)
    (drift_file : Option (Option (List CacheRow))) (force_recalculate : Bool) :
    Except String TrackerState :=
  match drift_file with
  | none => Except.error "AttributeError: NoneType object has no attribute exists"
  | some none => track_driftE cfg snaps
  | some (some rows) =>
    if force_recalculate then track_driftE cfg snaps
    else load_from_fileE cfg rows

/-- The fitted outputs assigned by PeakDrift.linear_fit: the slope and
its uncertainty, NaN on fit failure. -/
structure FitResult where
  fit_slope : PF
  fit_slope_err : PF
deriving DecidableEq

/-- PeakDrift.linear_fit (lines 250-297) with fit_fractional left at its
default, on a tracker whose masks decode to the given snapshot list.
The scipy curve_fit call and the square root of its covariance are
external numerics, abstracted by the curveFit argument, which returns
none exactly when curve_fit raises ValueError or RuntimeError (the two
exception types caught at line 291).  When the tracker has no valid
points, line 261 first evaluates and hence caches valid_wavelengths as
the empty list, then line 264 re-runs track_drift, which resets dates
(line 211) but appends a second copy to the existing wavelengths and
sigmas lists, so the validity mask recomputed at line 245 covers the
doubled list; line 266 then takes self.deltas from the stale cached
empty valid_wavelengths (an empty array under numpy-scalar typing), and
evaluating the xdata argument of the curve_fit call at line 279 computes
valid_dates for the first time, applying the doubled boolean mask to the
fresh dates array: numpy raises an uncaught IndexError whenever the
snapshot list is non-empty, and for an empty snapshot list curve_fit
itself raises an uncaught TypeError because the one fit parameter
exceeds the zero data points of the stale empty ydata. -/
def linear_fit (curveFit : List ℤ → List PF → List PF → Option (ℚ × ℚ))
    (cfg : DriftConfig) (snaps : List Snap) (st : TrackerState) :
    Except String FitResult :=
  if valid_wavelengths st = [] then
    match track_driftE cfg snaps with
    | Except.error e => Except.error e
    | Except.ok st2 =>
      match npMaskSel st2.dates
          ((st.wavelengths ++ st2.wavelengths).map truthy) with
      | Except.error e => Except.error e
      | Except.ok _ =>
        Except.error "TypeError: improper input: N=1 must not exceed M=0"
  else
    match curveFit (days_since_reference_date st) (deltas st)
        ((valid_sigmas st).map entryPF) with
    | some (p, c) => Except.ok ⟨PF.v p, PF.v c⟩
    | none => Except.ok ⟨PF.nan, PF.nan⟩

/-- GroupDrift.all_dates (lines 377-384): the loop extends one
accumulator list with the valid dates of each member, in member order.
The member list of a GroupDrift is the list sorted ascending by
reference wavelength in GroupDrift.__post_init__; the theorems below
quantify over an arbitrary stored member list. -/
def all_dates (g : List TrackerState) : List ℕ :=
  g.foldl (fun acc pd => acc ++ valid_dates pd) []

/-- GroupDrift.all_deltas (lines 398-405): the concatenation of the
fractional deltas of the members, in member order. -/
def all_deltas (g : List TrackerState) : List PF :=
  g.foldl (fun acc pd => acc ++ fractional_deltas pd) []

/-- GroupDrift.all_relative_sigmas (lines 416-423): the concatenation of
the valid uncertainties of each member divided elementwise by the
reference wavelength of that same member. -/
def all_relative_sigmas (g : List TrackerState) : List PF :=
  g.foldl
    (fun acc pd =>
      acc ++ (valid_sigmas pd).map (fun s => (entryPF s).divQ pd.reference_wavelength))
    []

/-- Python builtin min over a list, which raises ValueError on an empty
list; modelled by none. -/
def pyMin : List ℕ → Option ℕ
  | [] => none
  | d :: ds => some (ds.foldl min d)

/-- GroupDrift.reference_date (lines 386-388): the minimum of the pooled
dates of all members. -/
def reference_date (g : List TrackerState) : Option ℕ :=
  pyMin (all_dates g)

/-- Concrete two-snapshot input used to evaluate the save and load round
trip: each snapshot holds an in-window candidate and a distant decoy, so
both snapshots decode (two rows each) and both candidates are
accepted. -/
def exampleSnaps : List Snap :=
  [⟨1, [⟨5000, 1/100⟩, ⟨5100, 1/50⟩]⟩, ⟨2, [⟨25002/5, 1/100⟩, ⟨5100, 1/50⟩]⟩]

/-- The tracker state the tracking loop produces on exampleSnaps with
reference wavelength 5000 and local spacing 50. -/
def exampleTracked : TrackerState :=
  { referenceMaskDate := 0, reference_wavelength := 5000, local_spacing := 50,
    dates := [1, 2], wavelengths := [some (PF.v 5000), some (PF.v (25002/5))],
    sigmas := [some (PF.v (1/100)), some (PF.v (1/100))], valid := [true, true] }

/-- Decidable equality of run outcomes, used to evaluate the embedding
on concrete inputs. -/
instance {e a : Type} [DecidableEq e] [DecidableEq a] : DecidableEq (Except e a)
  | Except.error x, Except.error y =>
    if h : x = y then isTrue (by rw [h])
    else isFalse fun hc => h (Except.error.inj hc)
  | Except.error _, Except.ok _ => isFalse fun hc => Except.noConfusion hc
  | Except.ok _, Except.error _ => isFalse fun hc => Except.noConfusion hc
  | Except.ok x, Except.ok y =>
    if h : x = y then isTrue (by rw [h])
    else isFalse fun hc => h (Except.ok.inj hc)

/-- Joint shape of the three series produced by the tracking loop: the
three lists grow in lock step, and the wavelength and sigma entries of
an index are null together or plain rational floats together. -/
inductive Aligned : List ℕ → List (Option PF) → List (Option PF) → Prop where
  | nil : Aligned [] [] []
  | null (d : ℕ) {ds : List ℕ} {ws ss : List (Option PF)} :
      Aligned ds ws ss → Aligned (d :: ds) (none :: ws) (none :: ss)
  | found (d : ℕ) (p s : ℚ) {ds : List ℕ} {ws ss : List (Option PF)} :
      Aligned ds ws ss →
      Aligned (d :: ds) (some (PF.v p) :: ws) (some (PF.v s) :: ss)

/-! Helper lemmas about the matching step. -/

/-- Unfolding equation of closestRow on a cons cell. -/
theorem closestRow_cons (c : ℚ) (r : Row) (rest : List Row) :
    closestRow c (r :: rest) =
      match closestRow c rest with
      | none => some r
      | some b => if qabs (r.pos - c) ≤ qabs (b.pos - c) then some r else some b := rfl

/-- Selection lemma: on a non-empty candidate list, closestRow returns a
member of the list whose distance to the cursor is minimal. -/
theorem closestRow_spec (c : ℚ) :
    ∀ rows : List Row, rows ≠ [] →
      ∃ r : Row, r ∈ rows ∧ closestRow c rows = some r ∧
        ∀ r2 ∈ rows, qabs (r.pos - c) ≤ qabs (r2.pos - c)
  | [], h => absurd rfl h
  | r :: rest, _ => by
    cases hrest : rest with
    | nil =>
      refine ⟨r, List.mem_cons_self r [], by simp [closestRow], ?_⟩
      intro r2 hr2
      rcases List.mem_cons.mp hr2 with h | h
      · subst h; exact le_refl _
      · simp at h
    | cons a as =>
      have hne : rest ≠ [] := by simp [hrest]
      obtain ⟨b, hb_mem, hb_eq, hb_min⟩ := closestRow_spec c rest hne
      rw [hrest] at hb_eq hb_mem hb_min
      by_cases hle : qabs (r.pos - c) ≤ qabs (b.pos - c)
      · refine ⟨r, List.mem_cons_self r (a :: as), ?_, ?_⟩
        · rw [closestRow_cons, hb_eq]
          simp [hle]
        · intro r2 hr2
          rcases List.mem_cons.mp hr2 with h | h
          · subst h; exact le_refl _
          · exact le_trans hle (hb_min r2 h)
      · refine ⟨b, List.mem_cons_of_mem _ hb_mem, ?_, ?_⟩
        · rw [closestRow_cons, hb_eq]
          simp [hle]
        · intro r2 hr2
          rcases List.mem_cons.mp hr2 with h | h
          · subst h; exact le_of_lt (lt_of_not_le hle)
          · exact hb_min r2 h

/-- C9: constructing a tracker with no cache path supplied evaluates
self.drift_file.exists() on None and raises AttributeError instead of
tracking from the raw snapshots, for every configuration, snapshot list
and force flag. -/
theorem C9_no_cache_path_raises (cfg : DriftConfig) (snaps : List Snap)
    (force : Bool) :
    post_init cfg snaps none force =
      Except.error "AttributeError: NoneType object has no attribute exists" := rfl

/-- Case analysis of one tracking step: either a null match with an
unchanged cursor, or an accepted row recorded verbatim with the cursor
moved to its position. -/
theorem trackStep_shape (local_spacing cursor : ℚ) (rows : List Row) :
    trackStep local_spacing cursor rows = (none, none, cursor) ∨
    ∃ r : Row, trackStep local_spacing cursor rows =
      (some (PF.v r.pos), some (PF.v r.sig), r.pos) := by
  unfold trackStep
  cases closestRow cursor rows with
  | none => exact Or.inl rfl
  | some r =>
    by_cases hle : qabs (cursor - r.pos) ≤ local_spacing / 50
    · exact Or.inr ⟨r, by simp [hle]⟩
    · exact Or.inl (by simp [hle])

/-- Lengths of aligned series agree. -/
theorem Aligned.lengths {ds : List ℕ} {ws ss : List (Option PF)}
    (h : Aligned ds ws ss) : ws.length = ds.length ∧ ss.length = ds.length := by
  induction h with
  | nil => exact ⟨rfl, rfl⟩
  | null d _ ih => simp [ih.1, ih.2]
  | found d p s _ ih => simp [ih.1, ih.2]

/-- Wavelength entries of the tracking loop are never NaN: each is null
or a plain rational float. -/
theorem Aligned.w_shape {ds : List ℕ} {ws ss : List (Option PF)}
    (h : Aligned ds ws ss) :
    ∀ w ∈ ws, w = none ∨ ∃ q : ℚ, w = some (PF.v q) := by
  induction h with
  | nil => intro w hw; simp at hw
  | null d _ ih =>
    intro w hw
    rcases List.mem_cons.mp hw with h2 | h2
    · exact Or.inl h2
    · exact ih w h2
  | found d p s _ ih =>
    intro w hw
    rcases List.mem_cons.mp hw with h2 | h2
    · exact Or.inr ⟨p, h2⟩
    · exact ih w h2

/-- In aligned series, an index with a float wavelength entry also has a
float sigma entry. -/
theorem Aligned.sigma_of_w {ds : List ℕ} {ws ss : List (Option PF)}
    (h : Aligned ds ws ss) :
    ∀ (i : ℕ) (p : PF), ws.get? i = some (some p) →
      ∃ s2 : ℚ, ss.get? i = some (some (PF.v s2)) := by
  induction h with
  | nil => intro i p hw; simp at hw
  | null d _ ih =>
    intro i p hw
    cases i with
    | zero => simp at hw
    | succ n => exact ih n p hw
  | found d p2 s2 _ ih =>
    intro i p hw
    cases i with
    | zero => exact ⟨s2, rfl⟩
    | succ n => exact ih n p hw

/-- Characterisation of the truthiness-derived validity mask, over
series whose entries are null or plain floats: an index is valid exactly
when its wavelength entry is a nonzero float. -/
theorem map_truthy_get (ws : List (Option PF))
    (hs : ∀ w ∈ ws, w = none ∨ ∃ q : ℚ, w = some (PF.v q)) (i : ℕ) :
    (ws.map truthy).get? i = some true ↔
      ∃ q : ℚ, q ≠ 0 ∧ ws.get? i = some (some (PF.v q)) := by
  induction ws generalizing i with
  | nil => simp
  | cons w ws ih =>
    cases i with
    | zero =>
      rcases hs w (List.mem_cons_self _ _) with h | ⟨q, h⟩
      · subst h; simp [truthy]
      · subst h
        by_cases hq : q = 0
        · subst hq; simp [truthy]
        · simp [truthy, hq]
    | succ n =>
      simpa using ih (fun w hw => hs w (List.mem_cons_of_mem _ hw)) n

/-- Characterisation of the validity mask of a loaded tracker: an index
is valid exactly when its stored wavelength and (zero-reinterpreted)
sigma entries are non-NaN floats. -/
theorem load_valid_get (cfg : DriftConfig) (rows : List CacheRow) (i : ℕ) :
    (load_from_file cfg rows).valid.get? i = some true ↔
      ∃ w s2 : PF, w.isnan = false ∧ s2.isnan = false ∧
        (load_from_file cfg rows).wavelengths.get? i = some (some w) ∧
        (load_from_file cfg rows).sigmas.get? i = some (some s2) := by
  induction rows generalizing i with
  | nil => simp [load_from_file]
  | cons r rows ih =>
    cases i with
    | zero =>
      constructor
      · intro h
        have h2 : r.wl.isnan = false ∧ (zeroToNan r.sig).isnan = false := by
          simpa [load_from_file] using h
        exact ⟨r.wl, zeroToNan r.sig, h2.1, h2.2,
          by simp [load_from_file], by simp [load_from_file]⟩
      · rintro ⟨w, s2, hw, hs2, hweq, hseq⟩
        have hw2 : r.wl = w := by simpa [load_from_file] using hweq
        have hs3 : zeroToNan r.sig = s2 := by simpa [load_from_file] using hseq
        rw [← hw2] at hw
        rw [← hs3] at hs2
        simp [load_from_file, hw, hs2]
    | succ n =>
      simpa [load_from_file] using ih n

/-- Unfolding of entryPF on a present entry. -/
theorem entryPF_some (p : PF) : entryPF (some p) = p := rfl

/-- The zero-to-NaN reinterpretation never returns the literal zero. -/
theorem zeroToNan_ne_zero (p : PF) : zeroToNan p ≠ PF.v 0 := by
  unfold zeroToNan
  by_cases h : p = PF.v 0 <;> simp [h]

/-- Round-trip core: over aligned series with the truthiness mask, the
saved rows reproduce the masked dates and wavelengths verbatim and the
masked sigmas up to the zero-to-NaN reinterpretation. -/
theorem roundtrip_core {ds : List ℕ} {ws ss : List (Option PF)}
    (h : Aligned ds ws ss) :
    (rows3 (maskFilter ds (ws.map truthy)) (maskFilter ws (ws.map truthy))
        (maskFilter ss (ws.map truthy))).map (fun r => r.date) =
      maskFilter ds (ws.map truthy) ∧
    (rows3 (maskFilter ds (ws.map truthy)) (maskFilter ws (ws.map truthy))
        (maskFilter ss (ws.map truthy))).map (fun r => some r.wl) =
      maskFilter ws (ws.map truthy) ∧
    (rows3 (maskFilter ds (ws.map truthy)) (maskFilter ws (ws.map truthy))
        (maskFilter ss (ws.map truthy))).map (fun r => some (zeroToNan r.sig)) =
      (maskFilter ss (ws.map truthy)).map
        (fun e => some (zeroToNan (entryPF e))) := by
  induction h with
  | nil => exact ⟨rfl, rfl, rfl⟩
  | null d h2 ih =>
    simpa [List.map, truthy, maskFilter] using ih
  | found d p s h2 ih =>
    by_cases hp : p = 0
    · subst hp
      simpa [List.map, truthy, maskFilter] using ih
    · have ht : truthy (some (PF.v p)) = true := by simp [truthy, hp]
      simp only [List.map, ht, maskFilter, if_true, rows3, entryPF_some]
      exact ⟨by rw [ih.1], by rw [ih.2.1], by rw [ih.2.2]⟩

/-- The extend-in-a-loop aggregation pattern of GroupDrift equals the
concatenation of the per-member lists. -/
theorem foldl_append_eq_join {α β : Type} (f : α → List β) :
    ∀ (l : List α) (acc : List β),
      l.foldl (fun a x => a ++ f x) acc = acc ++ (l.map f).join
  | [], acc => by simp
  | x :: xs, acc => by
    rw [List.foldl_cons, foldl_append_eq_join f xs (acc ++ f x)]
    simp [List.append_assoc]

/-- C6: the pooled fractional deltas are the concatenation, in member
order, of each member wavelength series mapped through (w - reference) /
reference with that member reference wavelength, and the pooled relative
sigmas are the concatenation, in member order, of each member valid
uncertainty series divided by that same member reference wavelength. -/
theorem C6_group_pooling (g : List TrackerState) :
    all_deltas g =
      (g.map (fun pd => (valid_wavelengths pd).map
        (fun w => ((entryPF w).subQ pd.reference_wavelength).divQ
          pd.reference_wavelength))).join ∧
    all_relative_sigmas g =
      (g.map (fun pd => (valid_sigmas pd).map
        (fun s2 => (entryPF s2).divQ pd.reference_wavelength))).join := by
  constructor
  · rw [all_deltas, foldl_append_eq_join, List.nil_append]
    have hfd : (fractional_deltas : TrackerState → List PF) =
        fun pd => (valid_wavelengths pd).map
          (fun w => ((entryPF w).subQ pd.reference_wavelength).divQ
            pd.reference_wavelength) := by
      funext pd
      simp only [fractional_deltas, deltas, List.map_map]
      rfl
    rw [hfd]
  · rw [all_relative_sigmas, foldl_append_eq_join, List.nil_append]

/-- The fold of min over a list starting at a either stays at a or lands
in the list. -/
theorem foldl_min_mem : ∀ (l : List ℕ) (a : ℕ),
    l.foldl min a = a ∨ l.foldl min a ∈ l
  | [], _ => Or.inl rfl
  | x :: xs, a => by
    rcases foldl_min_mem xs (min a x) with h | h
    · rcases min_cases a x with ⟨h2, _⟩ | ⟨h2, _⟩
      · exact Or.inl (by rw [List.foldl_cons, h, h2])
      · exact Or.inr (by rw [List.foldl_cons, h, h2]; exact List.mem_cons_self _ _)
    · exact Or.inr (List.mem_cons_of_mem _ (by rw [List.foldl_cons]; exact h))

/-- The fold of min over a list is a lower bound of the start and of
every element. -/
theorem foldl_min_le : ∀ (l : List ℕ) (a : ℕ),
    l.foldl min a ≤ a ∧ ∀ x ∈ l, l.foldl min a ≤ x
  | [], a => ⟨le_refl a, by intro x hx; simp at hx⟩
  | x :: xs, a => by
    obtain ⟨hle, hbound⟩ := foldl_min_le xs (min a x)
    rw [List.foldl_cons]
    constructor
    · exact le_trans hle (min_le_left a x)
    · intro y hy
      rcases List.mem_cons.mp hy with h | h
      · rw [h]; exact le_trans hle (min_le_right a x)
      · exact hbound y h

/-- Python min over a non-empty list returns its least element. -/
theorem pyMin_spec (l : List ℕ) (h : l ≠ []) :
    ∃ m, pyMin l = some m ∧ m ∈ l ∧ ∀ x ∈ l, m ≤ x := by
  cases l with
  | nil => exact absurd rfl h
  | cons d ds =>
    refine ⟨ds.foldl min d, rfl, ?_, ?_⟩
    · rcases foldl_min_mem ds d with h2 | h2
      · rw [h2]; exact List.mem_cons_self _ _
      · exact List.mem_cons_of_mem _ h2
    · intro x hx
      rcases List.mem_cons.mp hx with h2 | h2
      · rw [h2]; exact (foldl_min_le ds d).1
      · exact (foldl_min_le ds d).2 x h2

/-- Python min over a concatenation of two non-empty lists is the
minimum of the two minima. -/
theorem pyMin_append (xs ys : List ℕ) (m1 m2 : ℕ)
    (h1 : pyMin xs = some m1) (h2 : pyMin ys = some m2) :
    pyMin (xs ++ ys) = some (min m1 m2) := by
  have hxs : xs ≠ [] := by
    intro h; rw [h] at h1; simp [pyMin] at h1
  have hys : ys ≠ [] := by
    intro h; rw [h] at h2; simp [pyMin] at h2
  have happ : xs ++ ys ≠ [] := by
    intro h
    exact hxs (List.append_eq_nil.mp h).1
  obtain ⟨m, hm, hmem, hbound⟩ := pyMin_spec (xs ++ ys) happ
  obtain ⟨n1, hn1, hmem1, hbound1⟩ := pyMin_spec xs hxs
  obtain ⟨n2, hn2, hmem2, hbound2⟩ := pyMin_spec ys hys
  rw [h1] at hn1
  rw [h2] at hn2
  have e1 : m1 = n1 := Option.some.inj hn1
  have e2 : m2 = n2 := Option.some.inj hn2
  rw [e1, e2, hm]
  have hm2 : m = min n1 n2 := by
    apply le_antisymm
    · exact le_min (hbound n1 (List.mem_append_left _ hmem1))
        (hbound n2 (List.mem_append_right _ hmem2))
    · rcases List.mem_append.mp hmem with h | h
      · exact le_trans (min_le_left _ _) (hbound1 m h)
      · exact le_trans (min_le_right _ _) (hbound2 m h)
  rw [hm2]

/-- C7 (amended): for a group with at least one valid observation, the
group reference date is the minimum over the concatenated valid dates of
all members (both as the Python expression and as a genuine least
element), and for a two-member group whose members have earliest valid
dates da and db the group reference date is min da db.  It is not in
general the minimum of the member reference mask dates. -/
theorem C7_amended (g : List TrackerState)
    (h : ∃ pd ∈ g, valid_dates pd ≠ []) :
    reference_date g = pyMin ((g.map valid_dates).join) ∧
    (∃ m, reference_date g = some m ∧ m ∈ all_dates g ∧
      ∀ d ∈ all_dates g, m ≤ d) ∧
    (∀ (a b : TrackerState) (da db : ℕ),
      pyMin (valid_dates a) = some da → pyMin (valid_dates b) = some db →
      reference_date [a, b] = some (min da db)) := by
  have hall : ∀ g2 : List TrackerState,
      all_dates g2 = (g2.map valid_dates).join := by
    intro g2
    rw [all_dates, foldl_append_eq_join, List.nil_append]
  refine ⟨by rw [reference_date, hall], ?_, ?_⟩
  · obtain ⟨pd, hpd, hne⟩ := h
    have hnonempty : all_dates g ≠ [] := by
      rw [hall]
      intro hcontra
      exact hne (List.join_eq_nil.mp hcontra _ (List.mem_map_of_mem _ hpd))
    obtain ⟨m, hm, hmem, hbound⟩ := pyMin_spec (all_dates g) hnonempty
    exact ⟨m, hm, hmem, hbound⟩
  · intro a b da db hda hdb
    have h2 : all_dates [a, b] = valid_dates a ++ valid_dates b := by
      rw [hall]; simp
    rw [reference_date, h2]
    exact pyMin_append _ _ _ _ hda hdb

/-- The date search returns NaN when the date occurs nowhere. -/
theorem lookupDelta_not_mem : ∀ (ds : List ℕ) (xs : List PF) (q : ℕ),
    q ∉ ds → lookupDelta ds xs q = PF.nan
  | [], xs, _, _ => by cases xs <;> rfl
  | _ :: _, [], _, _ => rfl
  | d :: ds, x :: xs, q, h => by
    have hdq : d ≠ q := by
      intro e; exact h (by rw [e]; exact List.mem_cons_self _ _)
    have hq : q ∉ ds := fun h2 => h (List.mem_cons_of_mem _ h2)
    simp [lookupDelta, hdq, lookupDelta_not_mem ds xs q hq]

/-- The date search returns the delta entry at the first index whose
date matches. -/
theorem lookupDelta_first : ∀ (pre post : List ℕ) (xs : List PF) (q : ℕ),
    q ∉ pre → lookupDelta (pre ++ q :: post) xs q = xs.getD pre.length PF.nan
  | [], _, xs, q, _ => by
    cases xs with
    | nil => rfl
    | cons x xs2 => simp [lookupDelta]
  | p :: pre, post, xs, q, h => by
    have hpq : p ≠ q := by
      intro e; exact h (by rw [e]; exact List.mem_cons_self _ _)
    have hq : q ∉ pre := fun h2 => h (List.mem_cons_of_mem _ h2)
    cases xs with
    | nil => rfl
    | cons x xs2 =>
      simp [lookupDelta, hpq, lookupDelta_first pre post xs2 q hq]

/-- C10: get_delta_at_date returns NaN when the queried date is not
among the valid dates; when the date occurs (also more than once) it
returns the delta entry of the first occurrence; and on a list argument
it returns the elementwise list of single-date results. -/
theorem C10_get_delta (st : TrackerState) (d : ℕ) :
    (d ∉ valid_dates st → get_delta_at_date st d = PF.nan) ∧
    (∀ pre post : List ℕ, valid_dates st = pre ++ d :: post → d ∉ pre →
      get_delta_at_date st d = (deltas st).getD pre.length PF.nan) ∧
    (∀ ds2 : List ℕ, get_delta_at_date_list st ds2 =
      ds2.map (get_delta_at_date st)) := by
  refine ⟨?_, ?_, fun _ => rfl⟩
  · intro h
    exact lookupDelta_not_mem _ _ _ h
  · intro pre post heq hpre
    rw [get_delta_at_date, heq]
    exact lookupDelta_first pre post (deltas st) d hpre

/-- Witness for C10 at a concrete loaded tracker whose valid dates are
20, 20, 30: date 40 is absent and yields NaN, and date 20 occurs twice
and yields the delta entry at index 0. -/
theorem C10_witness :
    get_delta_at_date
        (load_from_file ⟨0, 5000, 50⟩
          [⟨20, PF.v 5000, PF.v 1⟩, ⟨20, PF.v 6000, PF.v 1⟩,
           ⟨30, PF.v 7000, PF.v 1⟩]) 40 = PF.nan ∧
    get_delta_at_date
        (load_from_file ⟨0, 5000, 50⟩
          [⟨20, PF.v 5000, PF.v 1⟩, ⟨20, PF.v 6000, PF.v 1⟩,
           ⟨30, PF.v 7000, PF.v 1⟩]) 20 =
      (deltas (load_from_file ⟨0, 5000, 50⟩
          [⟨20, PF.v 5000, PF.v 1⟩, ⟨20, PF.v 6000, PF.v 1⟩,
           ⟨30, PF.v 7000, PF.v 1⟩])).getD 0 PF.nan := by
  constructor
  · exact (C10_get_delta _ 40).1 (by with_unfolding_all decide)
  · exact (C10_get_delta _ 20).2.1 [] [20, 30]
      (by with_unfolding_all decide) (by simp)

/-- Unfolding equation of snapStepE on two or more rows: the columns
decode and the matching logic runs. -/
theorem snapStepE_cons2 (local_spacing cursor : ℚ) (a b : Row) (l : List Row) :
    snapStepE local_spacing cursor (a :: b :: l) =
      Except.ok (trackStep local_spacing cursor (a :: b :: l)) := rfl

/-- Case analysis of a successful snapshot step: either a null match
with an unchanged cursor, or an accepted row recorded verbatim with the
cursor moved to its position. -/
theorem snapStepE_shape (local_spacing cursor : ℚ) (rows : List Row)
    (step : Option PF × Option PF × ℚ)
    (h : snapStepE local_spacing cursor rows = Except.ok step) :
    step = (none, none, cursor) ∨
    ∃ r : Row, step = (some (PF.v r.pos), some (PF.v r.sig), r.pos) := by
  rcases rows with _ | ⟨a, _ | ⟨b, l⟩⟩
  · simp [snapStepE] at h
  · simp [snapStepE] at h
  · have h2 : trackStep local_spacing cursor (a :: b :: l) = step := by
      simpa [snapStepE] using h
    rcases trackStep_shape local_spacing cursor (a :: b :: l) with h3 | ⟨r, h3⟩
    · exact Or.inl (by rw [← h2, h3])
    · exact Or.inr ⟨r, by rw [← h2, h3]⟩

/-- Unfolding equation of the tracking loop on a cons cell. -/
theorem trackAuxE_cons (local_spacing cursor : ℚ) (s : Snap) (rest : List Snap) :
    trackAuxE local_spacing cursor (s :: rest) =
      match snapStepE local_spacing cursor s.rows with
      | Except.error e => Except.error e
      | Except.ok step =>
        match trackAuxE local_spacing step.2.2 rest with
        | Except.error e => Except.error e
        | Except.ok tail =>
          Except.ok (s.date :: tail.1, step.1 :: tail.2.1, step.2.1 :: tail.2.2) := rfl

/-- A successfully decoded snapshot prepends its entries and the loop
continues from the cursor the step returned. -/
theorem trackAuxE_cons_ok (local_spacing cursor : ℚ) (s : Snap) (rest : List Snap)
    (step : Option PF × Option PF × ℚ)
    (h : snapStepE local_spacing cursor s.rows = Except.ok step) :
    trackAuxE local_spacing cursor (s :: rest) =
      (trackAuxE local_spacing step.2.2 rest).map
        (fun tail => (s.date :: tail.1, step.1 :: tail.2.1, step.2.1 :: tail.2.2)) := by
  rw [trackAuxE_cons, h]
  show (match trackAuxE local_spacing step.2.2 rest with
    | Except.error e => Except.error e
    | Except.ok tail =>
      Except.ok (s.date :: tail.1, step.1 :: tail.2.1, step.2.1 :: tail.2.2)) = _
  cases trackAuxE local_spacing step.2.2 rest <;> rfl

/-- A successful tracking run produces aligned series with one date per
snapshot. -/
theorem trackAuxE_ok_spec (local_spacing : ℚ) :
    ∀ (snaps : List Snap) (cursor : ℚ)
      (t : List ℕ × List (Option PF) × List (Option PF)),
      trackAuxE local_spacing cursor snaps = Except.ok t →
      Aligned t.1 t.2.1 t.2.2 ∧ t.1.length = snaps.length
  | [], _, t, h => by
    have h2 : (([], [], []) : List ℕ × List (Option PF) × List (Option PF)) = t := by
      simpa [trackAuxE] using h
    rw [← h2]
    exact ⟨Aligned.nil, rfl⟩
  | s :: rest, cursor, t, h => by
    rcases hstep : snapStepE local_spacing cursor s.rows with e | step
    · rw [trackAuxE_cons, hstep] at h
      simp at h
    · rw [trackAuxE_cons_ok local_spacing cursor s rest step hstep] at h
      rcases htail : trackAuxE local_spacing step.2.2 rest with e | tail
      · rw [htail] at h
        simp [Except.map] at h
      · rw [htail] at h
        have h3 : (s.date :: tail.1, step.1 :: tail.2.1, step.2.1 :: tail.2.2) = t := by
          simpa [Except.map] using h
        obtain ⟨IH1, IH2⟩ := trackAuxE_ok_spec local_spacing rest step.2.2 tail htail
        rcases snapStepE_shape local_spacing cursor s.rows step hstep with h4 | ⟨r, h4⟩
        · subst h4
          rw [← h3]
          exact ⟨Aligned.null s.date IH1, by simp [IH2]⟩
        · subst h4
          rw [← h3]
          exact ⟨Aligned.found s.date r.pos r.sig IH1, by simp [IH2]⟩

/-- Fields of a successfully constructed freshly tracked state: aligned
series, the truthiness-derived validity mask, and one date per
snapshot. -/
theorem track_driftE_ok_fields (cfg : DriftConfig) (snaps : List Snap)
    (st : TrackerState) (h : track_driftE cfg snaps = Except.ok st) :
    Aligned st.dates st.wavelengths st.sigmas ∧
    st.valid = st.wavelengths.map truthy ∧
    st.dates.length = snaps.length := by
  unfold track_driftE at h
  rcases ht : trackAuxE cfg.local_spacing cfg.reference_wavelength snaps with e | t
  · rw [ht] at h
    simp at h
  · rw [ht] at h
    obtain ⟨ha, hl⟩ :=
      trackAuxE_ok_spec cfg.local_spacing snaps cfg.reference_wavelength t ht
    have h2 := Except.ok.inj h
    rw [← h2]
    exact ⟨ha, rfl, hl⟩

/-- A cache of at least two rows decodes and is interpreted by
load_from_file. -/
theorem load_from_fileE_of_two (cfg : DriftConfig) (rows : List CacheRow)
    (h : 2 ≤ rows.length) :
    load_from_fileE cfg rows = Except.ok (load_from_file cfg rows) := by
  rcases rows with _ | ⟨a, _ | ⟨b, l⟩⟩
  · simp at h
  · simp at h
  · rfl

/-- A successful cache load means the cache had at least two rows and
the state is the interpreted cache. -/
theorem load_from_fileE_ok_inv (cfg : DriftConfig) (rows : List CacheRow)
    (st : TrackerState) (h : load_from_fileE cfg rows = Except.ok st) :
    st = load_from_file cfg rows ∧ 2 ≤ rows.length := by
  rcases rows with _ | ⟨a, _ | ⟨b, l⟩⟩
  · simp [load_from_fileE] at h
  · simp [load_from_fileE] at h
  · exact ⟨(Except.ok.inj h).symm, by simp⟩

/-- C1 counterexample: a snapshot whose candidate list is the single row
(5000.0, 0.01), at distance 0 from the cursor 5000 and hence inside the
window, is not selected and accepted: the loadtxt squeeze leaves numpy
scalars and line 230 raises an uncaught IndexError, aborting the run. -/
theorem C1_counterexample :
    (([⟨5000, 1/100⟩] : List Row) ≠ []) ∧
    qabs ((5000 : ℚ) - 5000) ≤ 50 / 50 ∧
    snapStepE 50 5000 [⟨5000, 1/100⟩] =
      Except.error "IndexError: invalid index to scalar variable" ∧
    track_driftE ⟨1, 5000, 50⟩ [⟨1, [⟨5000, 1/100⟩]⟩] =
      Except.error "IndexError: invalid index to scalar variable" := by
  refine ⟨by simp, by norm_num [qabs], rfl, rfl⟩

/-- C1 (amended): during track, for every snapshot whose candidate list
holds at least two rows, the candidate at minimum absolute distance from
the current cursor is selected; it is accepted exactly when that
distance is at most local_spacing / 50 (equality is accepted), in which
case its position and uncertainty are appended and tracking of the
remaining snapshots continues from the accepted position; when the
distance exceeds the window, a null match is appended and tracking
continues with the cursor unchanged.  A single-row snapshot instead
raises an uncaught IndexError (the squeeze of the loadtxt result leaves
numpy scalars at line 230). -/
theorem C1_window_matching (local_spacing cursor : ℚ) (rows : List Row)
    (h : 2 ≤ rows.length) :
    ∃ r : Row, r ∈ rows ∧ closestRow cursor rows = some r ∧
      (∀ r2 ∈ rows, qabs (r.pos - cursor) ≤ qabs (r2.pos - cursor)) ∧
      (qabs (cursor - r.pos) ≤ local_spacing / 50 →
        snapStepE local_spacing cursor rows =
          Except.ok (some (PF.v r.pos), some (PF.v r.sig), r.pos) ∧
        ∀ (d : ℕ) (rest : List Snap),
          trackAuxE local_spacing cursor (⟨d, rows⟩ :: rest) =
            (trackAuxE local_spacing r.pos rest).map
              (fun tail => (d :: tail.1, some (PF.v r.pos) :: tail.2.1,
                some (PF.v r.sig) :: tail.2.2))) ∧
      (¬ qabs (cursor - r.pos) ≤ local_spacing / 50 →
        snapStepE local_spacing cursor rows = Except.ok (none, none, cursor) ∧
        ∀ (d : ℕ) (rest : List Snap),
          trackAuxE local_spacing cursor (⟨d, rows⟩ :: rest) =
            (trackAuxE local_spacing cursor rest).map
              (fun tail => (d :: tail.1, none :: tail.2.1, none :: tail.2.2))) := by
  rcases rows with _ | ⟨a, _ | ⟨b, l⟩⟩
  · simp at h
  · simp at h
  · obtain ⟨r, hmem, heq, hmin⟩ := closestRow_spec cursor (a :: b :: l) (by simp)
    refine ⟨r, hmem, heq, hmin, ?_, ?_⟩
    · intro hacc
      have hs : snapStepE local_spacing cursor (a :: b :: l) =
          Except.ok (some (PF.v r.pos), some (PF.v r.sig), r.pos) := by
        rw [snapStepE_cons2]
        simp only [trackStep, heq, if_pos hacc]
      refine ⟨hs, ?_⟩
      intro d rest
      have h2 := trackAuxE_cons_ok local_spacing cursor ⟨d, a :: b :: l⟩ rest
        (some (PF.v r.pos), some (PF.v r.sig), r.pos) hs
      simpa using h2
    · intro hrej
      have hs : snapStepE local_spacing cursor (a :: b :: l) =
          Except.ok (none, none, cursor) := by
        rw [snapStepE_cons2]
        simp only [trackStep, heq, if_neg hrej]
      refine ⟨hs, ?_⟩
      intro d rest
      have h2 := trackAuxE_cons_ok local_spacing cursor ⟨d, a :: b :: l⟩ rest
        (none, none, cursor) hs
      simpa using h2

/-- Witness for C1 (amended) at a concrete input: two candidates at
5000.4 and 5100, cursor 5000, spacing 50 (window 1). -/
theorem C1_witness :
    ∃ r : Row, r ∈ [(⟨25002/5, 1/100⟩ : Row), ⟨5100, 1/50⟩] ∧
      closestRow 5000 [(⟨25002/5, 1/100⟩ : Row), ⟨5100, 1/50⟩] = some r ∧
      (∀ r2 ∈ [(⟨25002/5, 1/100⟩ : Row), ⟨5100, 1/50⟩],
        qabs (r.pos - 5000) ≤ qabs (r2.pos - 5000)) ∧
      (qabs (5000 - r.pos) ≤ 50 / 50 →
        snapStepE 50 5000 [(⟨25002/5, 1/100⟩ : Row), ⟨5100, 1/50⟩] =
          Except.ok (some (PF.v r.pos), some (PF.v r.sig), r.pos) ∧
        ∀ (d : ℕ) (rest : List Snap),
          trackAuxE 50 5000 (⟨d, [(⟨25002/5, 1/100⟩ : Row), ⟨5100, 1/50⟩]⟩ :: rest) =
            (trackAuxE 50 r.pos rest).map
              (fun tail => (d :: tail.1, some (PF.v r.pos) :: tail.2.1,
                some (PF.v r.sig) :: tail.2.2))) ∧
      (¬ qabs (5000 - r.pos) ≤ 50 / 50 →
        snapStepE 50 5000 [(⟨25002/5, 1/100⟩ : Row), ⟨5100, 1/50⟩] =
          Except.ok (none, none, 5000) ∧
        ∀ (d : ℕ) (rest : List Snap),
          trackAuxE 50 5000 (⟨d, [(⟨25002/5, 1/100⟩ : Row), ⟨5100, 1/50⟩]⟩ :: rest) =
            (trackAuxE 50 5000 rest).map
              (fun tail => (d :: tail.1, none :: tail.2.1, none :: tail.2.2))) :=
  C1_window_matching 50 5000 [⟨25002/5, 1/100⟩, ⟨5100, 1/50⟩] (by simp)

/-- C2: the recentring test vector does not materialise on the code.
Every snapshot of the vector is a one-row file, so the first snapshot
already raises an uncaught IndexError at line 230 after the loadtxt
squeeze; no wavelength or validity series is recorded. -/
theorem C2_singleton_snapshots_raise :
    track_driftE ⟨1, 5000, 50⟩
      [⟨1, [⟨5000, 1/100⟩]⟩, ⟨2, [⟨25002/5, 1/100⟩]⟩, ⟨3, [⟨50009/10, 1/100⟩]⟩,
       ⟨4, [⟨50013/10, 1/100⟩]⟩, ⟨5, [⟨5003, 1/100⟩]⟩] =
      Except.error "IndexError: invalid index to scalar variable" := rfl

/-- C8 counterexample: a snapshot file with no detected-peak rows at all
aborts tracking with an uncaught ValueError at the line-217 unpack; no
null match is recorded. -/
theorem C8_counterexample :
    track_driftE ⟨1, 5000, 50⟩ [⟨1, ([] : List Row)⟩] =
      Except.error "ValueError: not enough values to unpack (expected 2, got 0)" := rfl

/-- C8 (amended): for every snapshot whose candidate list is empty, the
unpack of the squeezed loadtxt result at line 217 raises an uncaught
ValueError before the matching step runs, and the tracking loop
propagates it regardless of the cursor, the date or the remaining
snapshots; no null match is recorded.  (The caught nanargmin ValueError
of lines 223-228, which does record a null match and continue, fires
only for decoded columns of two or more rows that are entirely NaN.) -/
theorem C8_empty_snapshot_raises (local_spacing cursor : ℚ) (d : ℕ)
    (rest : List Snap) :
    snapStepE local_spacing cursor [] =
      Except.error "ValueError: not enough values to unpack (expected 2, got 0)" ∧
    trackAuxE local_spacing cursor (⟨d, []⟩ :: rest) =
      Except.error "ValueError: not enough values to unpack (expected 2, got 0)" :=
  ⟨rfl, rfl⟩

/-- C3 counterexample.  First part: on the tracking path a two-row
snapshot whose in-window candidate sits at position exactly 0 (reference
wavelength 0.5, window 1.0, decoy at 100) is accepted and stored with a
well-formed uncertainty, yet its validity flag is false, because line
245 derives validity from Python truthiness of the wavelength entry
alone; the claimed biconditional with both entries being non-null and
non-NaN fails.  Second part: on the loading path the four arrays have
the length of the cache file (here 2), not the number of processed
snapshots (here 3). -/
theorem C3_counterexample :
    track_driftE ⟨0, 1/2, 50⟩ [⟨1, [⟨0, 1/10⟩, ⟨100, 1/5⟩]⟩] =
      Except.ok
        { referenceMaskDate := 0, reference_wavelength := 1/2,
          local_spacing := 50, dates := [1], wavelengths := [some (PF.v 0)],
          sigmas := [some (PF.v (1/10))], valid := [false] } ∧
    post_init ⟨0, 5000, 50⟩
        [⟨1, [⟨5000, 1/100⟩, ⟨5100, 1/50⟩]⟩, ⟨2, [⟨5000, 1/100⟩, ⟨5100, 1/50⟩]⟩,
         ⟨3, [⟨5000, 1/100⟩, ⟨5100, 1/50⟩]⟩]
        (some (some [⟨1, PF.v 5000, PF.v 1⟩, ⟨2, PF.v 5000, PF.v 1⟩])) false =
      Except.ok (load_from_file ⟨0, 5000, 50⟩
        [⟨1, PF.v 5000, PF.v 1⟩, ⟨2, PF.v 5000, PF.v 1⟩]) ∧
    (load_from_file ⟨0, 5000, 50⟩
        [⟨1, PF.v 5000, PF.v 1⟩, ⟨2, PF.v 5000, PF.v 1⟩]).dates.length = 2 ∧
    ([⟨1, [⟨5000, 1/100⟩, ⟨5100, 1/50⟩]⟩, ⟨2, [⟨5000, 1/100⟩, ⟨5100, 1/50⟩]⟩,
      ⟨3, [⟨5000, 1/100⟩, ⟨5100, 1/50⟩]⟩] : List Snap).length = 3 := by
  refine ⟨?_, rfl, rfl, rfl⟩
  with_unfolding_all decide

/-- C3 (amended): after a successful construction by either path, the
four per-index arrays have the same length, equal to the number of
processed snapshots on the tracking path and to the number of cache rows
on the loading path.  On the loading path, validity at an index holds
exactly when the wavelength and (zero-reinterpreted) sigma entries are
both non-null and non-NaN.  On the tracking path, validity at an index
holds exactly when the wavelength entry is a non-null nonzero float (its
truthiness); sigmas are not consulted, though a valid index always also
carries a non-null non-NaN sigma entry. -/
theorem C3_amended_invariants :
    (∀ (cfg : DriftConfig) (snaps : List Snap) (st : TrackerState),
      track_driftE cfg snaps = Except.ok st →
      (st.dates.length = snaps.length ∧
       st.wavelengths.length = snaps.length ∧
       st.sigmas.length = snaps.length ∧
       st.valid.length = snaps.length) ∧
      (∀ i : ℕ, st.valid.get? i = some true ↔
        ∃ q : ℚ, q ≠ 0 ∧ st.wavelengths.get? i = some (some (PF.v q))) ∧
      (∀ (i : ℕ) (p : PF), st.wavelengths.get? i = some (some p) →
        ∃ s2 : ℚ, st.sigmas.get? i = some (some (PF.v s2)))) ∧
    (∀ (cfg : DriftConfig) (rows : List CacheRow) (st : TrackerState),
      load_from_fileE cfg rows = Except.ok st →
      (st.dates.length = rows.length ∧
       st.wavelengths.length = rows.length ∧
       st.sigmas.length = rows.length ∧
       st.valid.length = rows.length) ∧
      (∀ i : ℕ, st.valid.get? i = some true ↔
        ∃ w s2 : PF, w.isnan = false ∧ s2.isnan = false ∧
          st.wavelengths.get? i = some (some w) ∧
          st.sigmas.get? i = some (some s2))) := by
  constructor
  · intro cfg snaps st h
    obtain ⟨hal, hval, hdl⟩ := track_driftE_ok_fields cfg snaps st h
    obtain ⟨hw, hs⟩ := hal.lengths
    refine ⟨⟨hdl, by rw [hw, hdl], by rw [hs, hdl], ?_⟩, ?_, ?_⟩
    · rw [hval]
      simp only [List.length_map]
      rw [hw, hdl]
    · intro i
      rw [hval]
      exact map_truthy_get _ hal.w_shape i
    · exact fun i p hp => hal.sigma_of_w i p hp
  · intro cfg rows st h
    obtain ⟨hst, _⟩ := load_from_fileE_ok_inv cfg rows st h
    subst hst
    refine ⟨⟨?_, ?_, ?_, ?_⟩, load_valid_get cfg rows⟩ <;> simp [load_from_file]

/-- Assembly of a tracked state from a successful loop run. -/
theorem track_driftE_of_aux (cfg : DriftConfig) (snaps : List Snap)
    (t : List ℕ × List (Option PF) × List (Option PF))
    (h : trackAuxE cfg.local_spacing cfg.reference_wavelength snaps =
      Except.ok t) :
    track_driftE cfg snaps = Except.ok
      { referenceMaskDate := cfg.referenceMaskDate,
        reference_wavelength := cfg.reference_wavelength,
        local_spacing := cfg.local_spacing,
        dates := t.1, wavelengths := t.2.1, sigmas := t.2.2,
        valid := (t.2.1).map truthy } := by
  unfold track_driftE
  rw [h]

/-- Concrete run: one snapshot with the in-window candidate 5000 and the
decoy 5100 tracks to a single accepted point. -/
theorem exampleOne_tracked :
    track_driftE ⟨0, 5000, 50⟩ [⟨1, [⟨5000, 1/100⟩, ⟨5100, 1/50⟩]⟩] =
      Except.ok
        { referenceMaskDate := 0, reference_wavelength := 5000,
          local_spacing := 50, dates := [1],
          wavelengths := [some (PF.v 5000)],
          sigmas := [some (PF.v (1/100))], valid := [true] } := by
  have h1 : trackStep 50 5000 [⟨5000, 1/100⟩, ⟨5100, 1/50⟩] =
      (some (PF.v 5000), some (PF.v (1/100)), 5000) := by
    simp only [trackStep, closestRow]
    norm_num [qabs]
  have hs1 : snapStepE 50 5000 [⟨5000, 1/100⟩, ⟨5100, 1/50⟩] =
      Except.ok (some (PF.v 5000), some (PF.v (1/100)), 5000) := by
    rw [snapStepE_cons2, h1]
  have haux : trackAuxE 50 5000 [⟨1, [⟨5000, 1/100⟩, ⟨5100, 1/50⟩]⟩] =
      Except.ok ([1], [some (PF.v 5000)], [some (PF.v (1/100))]) := by
    rw [trackAuxE_cons_ok 50 5000 ⟨1, [⟨5000, 1/100⟩, ⟨5100, 1/50⟩]⟩ [] _ hs1]
    rfl
  have h2 := track_driftE_of_aux ⟨0, 5000, 50⟩
    [⟨1, [⟨5000, 1/100⟩, ⟨5100, 1/50⟩]⟩] _ haux
  rw [h2]
  simp only [Except.ok.injEq, TrackerState.mk.injEq, List.map, truthy,
    decide_eq_true_eq]
  norm_num

/-- Concrete run: exampleSnaps tracks to exampleTracked, accepting both
in-window candidates and recentring on the first. -/
theorem exampleSnaps_tracked :
    track_driftE ⟨0, 5000, 50⟩ exampleSnaps = Except.ok exampleTracked := by
  have h1 : trackStep 50 5000 [⟨5000, 1/100⟩, ⟨5100, 1/50⟩] =
      (some (PF.v 5000), some (PF.v (1/100)), 5000) := by
    simp only [trackStep, closestRow]
    norm_num [qabs]
  have h2 : trackStep 50 5000 [⟨25002/5, 1/100⟩, ⟨5100, 1/50⟩] =
      (some (PF.v (25002/5)), some (PF.v (1/100)), 25002/5) := by
    simp only [trackStep, closestRow]
    norm_num [qabs]
  have hs1 : snapStepE 50 5000 [⟨5000, 1/100⟩, ⟨5100, 1/50⟩] =
      Except.ok (some (PF.v 5000), some (PF.v (1/100)), 5000) := by
    rw [snapStepE_cons2, h1]
  have hs2 : snapStepE 50 5000 [⟨25002/5, 1/100⟩, ⟨5100, 1/50⟩] =
      Except.ok (some (PF.v (25002/5)), some (PF.v (1/100)), 25002/5) := by
    rw [snapStepE_cons2, h2]
  have haux2 : trackAuxE 50 5000 [⟨2, [⟨25002/5, 1/100⟩, ⟨5100, 1/50⟩]⟩] =
      Except.ok ([2], [some (PF.v (25002/5))], [some (PF.v (1/100))]) := by
    rw [trackAuxE_cons_ok 50 5000 ⟨2, [⟨25002/5, 1/100⟩, ⟨5100, 1/50⟩]⟩ [] _ hs2]
    rfl
  have haux : trackAuxE 50 5000 exampleSnaps =
      Except.ok ([1, 2], [some (PF.v 5000), some (PF.v (25002/5))],
        [some (PF.v (1/100)), some (PF.v (1/100))]) := by
    show trackAuxE 50 5000
      (⟨1, [⟨5000, 1/100⟩, ⟨5100, 1/50⟩]⟩ ::
        [⟨2, [⟨25002/5, 1/100⟩, ⟨5100, 1/50⟩]⟩]) = _
    rw [trackAuxE_cons_ok 50 5000 ⟨1, [⟨5000, 1/100⟩, ⟨5100, 1/50⟩]⟩
      [⟨2, [⟨25002/5, 1/100⟩, ⟨5100, 1/50⟩]⟩] _ hs1]
    show (trackAuxE 50 5000 [⟨2, [⟨25002/5, 1/100⟩, ⟨5100, 1/50⟩]⟩]).map _ = _
    rw [haux2]
    rfl
  have h3 := track_driftE_of_aux ⟨0, 5000, 50⟩ exampleSnaps _ haux
  rw [h3]
  simp only [exampleTracked, Except.ok.injEq, TrackerState.mk.injEq, List.map,
    truthy, decide_eq_true_eq]
  norm_num

/-- C4 counterexample: a freshly tracked tracker with exactly one valid
point (its single two-row snapshot accepts the in-window candidate at
the reference wavelength).  save writes one row, and loading the written
one-row cache raises an uncaught TypeError at line 101 instead of
reproducing the arrays. -/
theorem C4_counterexample :
    ∃ st : TrackerState,
      track_driftE ⟨0, 5000, 50⟩ [⟨1, [⟨5000, 1/100⟩, ⟨5100, 1/50⟩]⟩] =
        Except.ok st ∧
      st.valid = [true] ∧
      (save_to_file st).length = 1 ∧
      load_from_fileE ⟨0, 5000, 50⟩ (save_to_file st) =
        Except.error "TypeError: numpy.float64 object is not iterable" := by
  refine
    ⟨{ referenceMaskDate := 0, reference_wavelength := 5000,
       local_spacing := 50, dates := [1], wavelengths := [some (PF.v 5000)],
       sigmas := [some (PF.v (1/100))], valid := [true] }, ?_, rfl, ?_, ?_⟩
  · exact exampleOne_tracked
  · rfl
  · rfl

/-- C4 (amended): saving a freshly tracked tracker and loading the
written rows reproduces the valid dates and valid wavelengths verbatim
and in order, and the valid uncertainties up to the documented
reinterpretation of a stored zero, with previously invalid indices
absent from the loaded arrays, provided at least two rows were written;
a stored uncertainty of exactly 0 is read back as NaN, no loaded
uncertainty entry is ever the literal 0, and every nonzero stored
uncertainty is read back verbatim.  With fewer than two valid points the
load of the written cache raises instead (ValueError for an empty cache,
TypeError for a one-row cache). -/
theorem C4_roundtrip (cfg : DriftConfig) (snaps : List Snap)
    (st : TrackerState) (hok : track_driftE cfg snaps = Except.ok st)
    (htwo : 2 ≤ (save_to_file st).length) :
    load_from_fileE cfg (save_to_file st) =
      Except.ok (load_from_file cfg (save_to_file st)) ∧
    (load_from_file cfg (save_to_file st)).dates = valid_dates st ∧
    (load_from_file cfg (save_to_file st)).wavelengths =
      valid_wavelengths st ∧
    (load_from_file cfg (save_to_file st)).sigmas =
      (valid_sigmas st).map (fun e => some (zeroToNan (entryPF e))) ∧
    (∀ e ∈ (load_from_file cfg (save_to_file st)).sigmas,
      e ≠ some (PF.v 0)) ∧
    (∀ i : ℕ, (valid_sigmas st).get? i = some (some (PF.v 0)) →
      (load_from_file cfg (save_to_file st)).sigmas.get? i =
        some (some PF.nan)) ∧
    (∀ (i : ℕ) (s2 : ℚ), s2 ≠ 0 →
      (valid_sigmas st).get? i = some (some (PF.v s2)) →
      (load_from_file cfg (save_to_file st)).sigmas.get? i =
        some (some (PF.v s2))) := by
  obtain ⟨hal, hval, _⟩ := track_driftE_ok_fields cfg snaps st hok
  have hcore := roundtrip_core hal
  have h1 : (load_from_file cfg (save_to_file st)).dates = valid_dates st := by
    simpa [load_from_file, save_to_file, valid_dates, valid_wavelengths,
      valid_sigmas, hval] using hcore.1
  have h2 : (load_from_file cfg (save_to_file st)).wavelengths =
      valid_wavelengths st := by
    simpa [load_from_file, save_to_file, valid_dates, valid_wavelengths,
      valid_sigmas, hval] using hcore.2.1
  have h3 : (load_from_file cfg (save_to_file st)).sigmas =
      (valid_sigmas st).map (fun e => some (zeroToNan (entryPF e))) := by
    simpa [load_from_file, save_to_file, valid_dates, valid_wavelengths,
      valid_sigmas, hval] using hcore.2.2
  refine ⟨load_from_fileE_of_two cfg (save_to_file st) htwo, h1, h2, h3,
    ?_, ?_, ?_⟩
  · intro e he
    rw [h3] at he
    obtain ⟨x, _, rfl⟩ := List.mem_map.mp he
    intro hcontra
    exact zeroToNan_ne_zero (entryPF x) (Option.some.inj hcontra)
  · intro i hi
    rw [h3, List.get?_map, hi]
    show some (some (zeroToNan (entryPF (some (PF.v 0))))) = some (some PF.nan)
    rw [entryPF_some]
    simp [zeroToNan]
  · intro i s2 hs2 hi
    rw [h3, List.get?_map, hi]
    show some (some (zeroToNan (entryPF (some (PF.v s2))))) =
      some (some (PF.v s2))
    rw [entryPF_some]
    simp [zeroToNan, hs2]

/-- Witness for C4 (amended): the concrete two-snapshot tracker
exampleTracked has two valid points, its saved cache has two rows, and
the round trip reproduces its arrays. -/
theorem C4_witness :
    load_from_fileE ⟨0, 5000, 50⟩ (save_to_file exampleTracked) =
      Except.ok (load_from_file ⟨0, 5000, 50⟩ (save_to_file exampleTracked)) ∧
    (load_from_file ⟨0, 5000, 50⟩ (save_to_file exampleTracked)).dates =
      valid_dates exampleTracked ∧
    (load_from_file ⟨0, 5000, 50⟩ (save_to_file exampleTracked)).wavelengths =
      valid_wavelengths exampleTracked ∧
    (load_from_file ⟨0, 5000, 50⟩ (save_to_file exampleTracked)).sigmas =
      (valid_sigmas exampleTracked).map
        (fun e => some (zeroToNan (entryPF e))) ∧
    (∀ e ∈ (load_from_file ⟨0, 5000, 50⟩ (save_to_file exampleTracked)).sigmas,
      e ≠ some (PF.v 0)) ∧
    (∀ i : ℕ, (valid_sigmas exampleTracked).get? i = some (some (PF.v 0)) →
      (load_from_file ⟨0, 5000, 50⟩ (save_to_file exampleTracked)).sigmas.get? i =
        some (some PF.nan)) ∧
    (∀ (i : ℕ) (s2 : ℚ), s2 ≠ 0 →
      (valid_sigmas exampleTracked).get? i = some (some (PF.v s2)) →
      (load_from_file ⟨0, 5000, 50⟩ (save_to_file exampleTracked)).sigmas.get? i =
        some (some (PF.v s2))) :=
  C4_roundtrip ⟨0, 5000, 50⟩ exampleSnaps exampleTracked
    exampleSnaps_tracked (by rfl)

/-- Concrete run: one snapshot whose two candidates at 5010 and 5020 are
both outside the window 1.0 around the reference wavelength 5000 tracks
to a single null match (zero valid points). -/
theorem exampleRejected_tracked :
    track_driftE ⟨0, 5000, 50⟩ [⟨1, [⟨5010, 1/100⟩, ⟨5020, 1/50⟩]⟩] =
      Except.ok
        { referenceMaskDate := 0, reference_wavelength := 5000,
          local_spacing := 50, dates := [1], wavelengths := [none],
          sigmas := [none], valid := [false] } := by
  have h1 : trackStep 50 5000 [⟨5010, 1/100⟩, ⟨5020, 1/50⟩] =
      (none, none, 5000) := by
    simp only [trackStep, closestRow]
    norm_num [qabs]
  have hs1 : snapStepE 50 5000 [⟨5010, 1/100⟩, ⟨5020, 1/50⟩] =
      Except.ok (none, none, 5000) := by
    rw [snapStepE_cons2, h1]
  have haux : trackAuxE 50 5000 [⟨1, [⟨5010, 1/100⟩, ⟨5020, 1/50⟩]⟩] =
      Except.ok ([1], [none], [none]) := by
    rw [trackAuxE_cons_ok 50 5000 ⟨1, [⟨5010, 1/100⟩, ⟨5020, 1/50⟩]⟩ [] _ hs1]
    rfl
  have h2 := track_driftE_of_aux ⟨0, 5000, 50⟩
    [⟨1, [⟨5010, 1/100⟩, ⟨5020, 1/50⟩]⟩] _ haux
  rw [h2]
  rfl

/-- C5: for a reachable tracker with zero valid points (its single
two-row snapshot decodes, but both candidates are 10 and 20 away from
the reference wavelength, outside the window 1.0), linear_fit raises
instead of degrading to NaN: the zero-valid branch caches the empty
valid_wavelengths, re-runs track_drift so that the validity mask covers
the doubled wavelengths list while dates was reset, and the first
evaluation of valid_dates inside the curve_fit call applies the
length-2 boolean mask to the length-1 dates array, an uncaught numpy
IndexError. -/
theorem C5_zero_valid_fit_raises :
    ∃ st : TrackerState,
      track_driftE ⟨0, 5000, 50⟩ [⟨1, [⟨5010, 1/100⟩, ⟨5020, 1/50⟩]⟩] =
        Except.ok st ∧
      valid_wavelengths st = [] ∧
      linear_fit (fun _ _ _ => none) ⟨0, 5000, 50⟩
          [⟨1, [⟨5010, 1/100⟩, ⟨5020, 1/50⟩]⟩] st =
        Except.error "IndexError: boolean index did not match indexed array" := by
  refine
    ⟨{ referenceMaskDate := 0, reference_wavelength := 5000,
       local_spacing := 50, dates := [1], wavelengths := [none],
       sigmas := [none], valid := [false] },
     exampleRejected_tracked, rfl, ?_⟩
  unfold linear_fit
  rw [exampleRejected_tracked]
  rfl

/-- C7 counterexample: two members loaded from two-row caches whose
reference mask dates are 5 and 6 but whose valid observation dates are
20, 21 and 20, 22.  The group reference date is 20, the minimum over all
valid dates, and differs from the minimum of the member reference
dates. -/
theorem C7_counterexample :
    load_from_fileE ⟨5, 5000, 50⟩
        [⟨20, PF.v 5000, PF.v 1⟩, ⟨21, PF.v 5000, PF.v 1⟩] =
      Except.ok (load_from_file ⟨5, 5000, 50⟩
        [⟨20, PF.v 5000, PF.v 1⟩, ⟨21, PF.v 5000, PF.v 1⟩]) ∧
    (load_from_file ⟨5, 5000, 50⟩
        [⟨20, PF.v 5000, PF.v 1⟩, ⟨21, PF.v 5000, PF.v 1⟩]).referenceMaskDate = 5 ∧
    (load_from_file ⟨6, 6000, 50⟩
        [⟨20, PF.v 6000, PF.v 1⟩, ⟨22, PF.v 6000, PF.v 1⟩]).referenceMaskDate = 6 ∧
    reference_date
      [load_from_file ⟨5, 5000, 50⟩
        [⟨20, PF.v 5000, PF.v 1⟩, ⟨21, PF.v 5000, PF.v 1⟩],
       load_from_file ⟨6, 6000, 50⟩
        [⟨20, PF.v 6000, PF.v 1⟩, ⟨22, PF.v 6000, PF.v 1⟩]] = some 20 ∧
    (some (min 5 6) : Option ℕ) ≠ some 20 := by
  refine ⟨rfl, rfl, rfl, ?_, by decide⟩
  with_unfolding_all decide

/-- Witness for C7 (amended) at a concrete two-member group loaded from
two-row caches, with valid dates 20, 21 and 25, 26. -/
theorem C7_amended_witness :
    reference_date
        [load_from_file ⟨5, 5000, 50⟩
          [⟨20, PF.v 5000, PF.v 1⟩, ⟨21, PF.v 5000, PF.v 1⟩],
         load_from_file ⟨6, 6000, 50⟩
          [⟨25, PF.v 6000, PF.v 1⟩, ⟨26, PF.v 6000, PF.v 1⟩]] =
      pyMin (([load_from_file ⟨5, 5000, 50⟩
          [⟨20, PF.v 5000, PF.v 1⟩, ⟨21, PF.v 5000, PF.v 1⟩],
         load_from_file ⟨6, 6000, 50⟩
          [⟨25, PF.v 6000, PF.v 1⟩, ⟨26, PF.v 6000, PF.v 1⟩]].map
            valid_dates).join) ∧
    (∃ m, reference_date
        [load_from_file ⟨5, 5000, 50⟩
          [⟨20, PF.v 5000, PF.v 1⟩, ⟨21, PF.v 5000, PF.v 1⟩],
         load_from_file ⟨6, 6000, 50⟩
          [⟨25, PF.v 6000, PF.v 1⟩, ⟨26, PF.v 6000, PF.v 1⟩]] = some m ∧
      m ∈ all_dates
        [load_from_file ⟨5, 5000, 50⟩
          [⟨20, PF.v 5000, PF.v 1⟩, ⟨21, PF.v 5000, PF.v 1⟩],
         load_from_file ⟨6, 6000, 50⟩
          [⟨25, PF.v 6000, PF.v 1⟩, ⟨26, PF.v 6000, PF.v 1⟩]] ∧
      ∀ d ∈ all_dates
        [load_from_file ⟨5, 5000, 50⟩
          [⟨20, PF.v 5000, PF.v 1⟩, ⟨21, PF.v 5000, PF.v 1⟩],
         load_from_file ⟨6, 6000, 50⟩
          [⟨25, PF.v 6000, PF.v 1⟩, ⟨26, PF.v 6000, PF.v 1⟩]], m ≤ d) ∧
    (∀ (a b : TrackerState) (da db : ℕ),
      pyMin (valid_dates a) = some da → pyMin (valid_dates b) = some db →
      reference_date [a, b] = some (min da db)) :=
  C7_amended
    [load_from_file ⟨5, 5000, 50⟩
      [⟨20, PF.v 5000, PF.v 1⟩, ⟨21, PF.v 5000, PF.v 1⟩],
     load_from_file ⟨6, 6000, 50⟩
      [⟨25, PF.v 6000, PF.v 1⟩, ⟨26, PF.v 6000, PF.v 1⟩]]
    ⟨load_from_file ⟨5, 5000, 50⟩
      [⟨20, PF.v 5000, PF.v 1⟩, ⟨21, PF.v 5000, PF.v 1⟩],
     List.mem_cons_self _ _, by with_unfolding_all decide⟩

end Polly
